import Mathlib

/-!
Shallow embedding of `Source/Core/BSpline.js` (the B-spline curve evaluator).

Scalars are modelled as rationals.  The file embeds, from the source:

* the `BSpline` constructor (lines 46-83): argument validation and the
  stored state `times`, `points`, `_lastTimeIndex`;
* the module constant `BSpline.bSplineCoefficientMatrix` (lines 85-90);
* the fact that the property `BSpline.bezierCoefficientMatrix`, read at
  line 144 of `evaluate`, is never assigned anywhere in the source and is
  therefore the JavaScript value `undefined`;
* `BSpline.prototype.evaluate` (lines 132-179), including the four-point
  window selection of lines 146-170.

The modules `Cartesian3`, `Cartesian4`, `Matrix4`, `Spline`, `defined`,
`defaultValue` and `DeveloperError` are imported by the source but are not
part of the sources; where they decide behaviour they are modelled from the
specification (each such definition carries a doc comment saying so).

Errors (JavaScript `throw`) are modelled with `Except`; a JavaScript value
that may be `undefined` is modelled with `Option`.
-/

/-- Error outcomes of the embedded code.  The first four correspond to the
spec's MISSING_ARGUMENT (split into its two `DeveloperError` messages,
`times is required.` and `points is required.`), INVALID_LENGTH,
LENGTH_MISMATCH and OUT_OF_RANGE kinds; `undefinedAccess` models the
runtime failure raised when an `undefined` value is used where an object is
required (as happens at line 144, where `BSpline.bezierCoefficientMatrix`
is `undefined`). -/
inductive SplineError where
  | timesRequired
  | pointsRequired
  | invalidLength
  | lengthMismatch
  | outOfRange
  | undefinedAccess
deriving DecidableEq, Repr

/-- Modelled from the spec: a ControlPoint is a 3-component real-valued
vector (module `Cartesian3`, not in the sources). -/
structure Cartesian3 where
  x : ℚ
  y : ℚ
  z : ℚ
deriving DecidableEq, Repr

/-- Modelled from the spec: componentwise vector sum (the evaluator blends
by a weighted vector sum, componentwise); `Cartesian3.add` of the absent
`Cartesian3` module. -/
def Cartesian3.add (left right : Cartesian3) : Cartesian3 :=
  ⟨left.x + right.x, left.y + right.y, left.z + right.z⟩

/-- Modelled from the spec: componentwise vector difference;
`Cartesian3.subtract` of the absent `Cartesian3` module. -/
def Cartesian3.subtract (left right : Cartesian3) : Cartesian3 :=
  ⟨left.x - right.x, left.y - right.y, left.z - right.z⟩

/-- Modelled from the spec: componentwise scaling of a vector;
`Cartesian3.multiplyByScalar` of the absent `Cartesian3` module. -/
def Cartesian3.multiplyByScalar (cartesian : Cartesian3) (scalar : ℚ) : Cartesian3 :=
  ⟨cartesian.x * scalar, cartesian.y * scalar, cartesian.z * scalar⟩

/-- Modelled from the spec: a 4-component vector (module `Cartesian4`, not
in the sources).  `new Cartesian4()` defaults every component to 0. -/
structure Cartesian4 where
  x : ℚ
  y : ℚ
  z : ℚ
  w : ℚ
deriving DecidableEq, Repr

/-- Modelled from the spec: a fixed 4x4 matrix (module `Matrix4`, not in
the sources).  The constructor arguments are given in row-major reading
order, as in Cesium's `new Matrix4(...)`: `m00 m01 m02 m03` is the first
row, and so on. -/
structure Matrix4 where
  m00 : ℚ
  m01 : ℚ
  m02 : ℚ
  m03 : ℚ
  m10 : ℚ
  m11 : ℚ
  m12 : ℚ
  m13 : ℚ
  m20 : ℚ
  m21 : ℚ
  m22 : ℚ
  m23 : ℚ
  m30 : ℚ
  m31 : ℚ
  m32 : ℚ
  m33 : ℚ
deriving DecidableEq, Repr

/-- Modelled from the spec: componentwise scaling of a matrix;
`Matrix4.multiplyByScalar` of the absent `Matrix4` module (used at line 90
to scale the basis matrix by 1/6). -/
def Matrix4.multiplyByScalar (m : Matrix4) (s : ℚ) : Matrix4 :=
  ⟨m.m00 * s, m.m01 * s, m.m02 * s, m.m03 * s,
   m.m10 * s, m.m11 * s, m.m12 * s, m.m13 * s,
   m.m20 * s, m.m21 * s, m.m22 * s, m.m23 * s,
   m.m30 * s, m.m31 * s, m.m32 * s, m.m33 * s⟩

/-- Modelled from the spec: the matrix-vector product ("Transform the
monomial vector by the fixed BasisMatrix (matrix-vector product) to get
four blending weights"); `Matrix4.multiplyByVector` of the absent
`Matrix4` module. -/
def Matrix4.multiplyByVector (m : Matrix4) (v : Cartesian4) : Cartesian4 :=
  ⟨m.m00 * v.x + m.m01 * v.y + m.m02 * v.z + m.m03 * v.w,
   m.m10 * v.x + m.m11 * v.y + m.m12 * v.z + m.m13 * v.w,
   m.m20 * v.x + m.m21 * v.y + m.m22 * v.z + m.m23 * v.w,
   m.m30 * v.x + m.m31 * v.y + m.m32 * v.z + m.m33 * v.w⟩

/-- Modelled from the spec: `Matrix4.multiplyByPoint` of the absent
`Matrix4` module, used at line 144.  Per Cesium's documented semantics it
is the matrix-vector product with the point's fourth component taken as 1,
which is exactly how the spec's monomial vector `(u^3, u^2, u, 1)` obtains
its final 1 (the source never writes `timeVec.w`). -/
def Matrix4.multiplyByPoint (m : Matrix4) (v : Cartesian4) : Cartesian4 :=
  Matrix4.multiplyByVector m ⟨v.x, v.y, v.z, 1⟩

/-- State of a `BSpline` instance: the stored `times` and `points` arrays
and the mutable search-hint field `_lastTimeIndex` (lines 73, 80, 82). -/
@[ext]
structure BSpline where
  times : List ℚ
  points : List Cartesian3
  lastTimeIndex : ℕ
deriving DecidableEq, Repr

/-- The `BSpline` constructor, lines 46-83.  `none` models an absent
(`undefined`) argument; the four validation checks are performed in source
order, and on success the state stores the given arrays with
`_lastTimeIndex = 0`. -/
def BSpline.construct (times : Option (List ℚ)) (points : Option (List Cartesian3)) :
    Except SplineError BSpline :=
  match times with
  | none => .error .timesRequired
  | some times =>
    match points with
    | none => .error .pointsRequired
    | some points =>
      if points.length < 2 then .error .invalidLength
      else if times.length ≠ points.length then .error .lengthMismatch
      else .ok { times := times, points := points, lastTimeIndex := 0 }

/-- The module constant `BSpline.bSplineCoefficientMatrix`, lines 85-90:
the uniform cubic B-spline basis matrix, scaled in place by 1/6 at
line 90. -/
def BSpline.bSplineCoefficientMatrix : Matrix4 :=
  Matrix4.multiplyByScalar
    ⟨-1,  3, -3, 1,
      3, -6,  0, 4,
     -3,  3,  3, 1,
      1,  0,  0, 0⟩
    (1 / 6)

/-- Line 144 reads the property `BSpline.bezierCoefficientMatrix`.  The
source assigns only `BSpline.bSplineCoefficientMatrix` (line 85); the
property `bezierCoefficientMatrix` is never assigned anywhere in the
source, so in JavaScript the lookup yields `undefined`, modelled as
`none`. -/
def BSpline.bezierCoefficientMatrix : Option Matrix4 := none

/-- Modelled from the spec: the interval locator
`Spline.prototype.findTimeInterval`, installed on `BSpline` at line 105;
module `Spline` is not in the sources.  Per the spec it fails with
OUT_OF_RANGE when `time` lies outside `[times[0], times[times.length-1]]`
and otherwise returns the largest `i <= times.length - 2` with
`times[i] <= time`; the hint argument affects only search cost, never the
result. -/
def Spline.findTimeInterval (times : List ℚ) (time : ℚ) (hint : ℕ) : Except SplineError ℕ :=
  if time < times.getD 0 0 ∨ times.getD (times.length - 1) 0 < time then
    .error .outOfRange
  else
    .ok ((List.range (times.length - 1)).foldl
      (fun acc i => if times.getD i 0 ≤ time then i else acc) 0)

/-- Line 105: `BSpline.prototype.findTimeInterval =
Spline.prototype.findTimeInterval`. -/
def BSpline.findTimeInterval (s : BSpline) (time : ℚ) (hint : ℕ) : Except SplineError ℕ :=
  Spline.findTimeInterval s.times time hint

/-- A four-point control window. -/
abbrev Window := Cartesian3 × Cartesian3 × Cartesian3 × Cartesian3

/-- The `i === 0` branch of the window selection, lines 151-157: reads
`points[0]`, `points[1]`, `points[2]` and synthesizes
`p0 = (points[0] - points[1]) + points[0]`.  A read past the end of the
array yields `undefined` (`none`), which would fail when used. -/
def firstIntervalWindow (points : List Cartesian3) : Option Window :=
  match points[0]?, points[1]?, points[2]? with
  | some p1, some p2, some p3 =>
    some (Cartesian3.add (Cartesian3.subtract p1 p2) p1, p1, p2, p3)
  | _, _, _ => none

/-- The `i === points.length - 2` branch, lines 158-164: reads
`points[i-1]`, `points[i]`, `points[i+1]` and synthesizes
`p3 = (points[i+1] - points[i]) + points[i+1]`. -/
def lastIntervalWindow (points : List Cartesian3) (i : ℕ) : Option Window :=
  match points[i - 1]?, points[i]?, points[i + 1]? with
  | some p0, some p1, some p2 =>
    some (p0, p1, p2, Cartesian3.add (Cartesian3.subtract p2 p1) p2)
  | _, _, _ => none

/-- The interior branch, lines 165-170: reads `points[i-1]`, `points[i]`,
`points[i+1]`, `points[i+2]` directly. -/
def interiorWindow (points : List Cartesian3) (i : ℕ) : Option Window :=
  match points[i - 1]?, points[i]?, points[i + 1]?, points[i + 2]? with
  | some p0, some p1, some p2, some p3 => some (p0, p1, p2, p3)
  | _, _, _, _ => none

/-- The three-way window selection of lines 146-170, with the branches
tested in source order: `i === 0` first, then `i === points.length - 2`,
otherwise the interior case. -/
def selectWindow (points : List Cartesian3) (i : ℕ) : Option Window :=
  if i = 0 then firstIntervalWindow points
  else if i = points.length - 2 then lastIntervalWindow points i
  else interiorWindow points i

/-- The weighted blend of lines 172-178:
`p0*coefs.x + p1*coefs.y + p2*coefs.z + p3*coefs.w`, accumulated
componentwise in source order. -/
def blendWindow (coefs : Cartesian4) (w : Window) : Cartesian3 :=
  Cartesian3.add
    (Cartesian3.add
      (Cartesian3.add
        (Cartesian3.multiplyByScalar w.1 coefs.x)
        (Cartesian3.multiplyByScalar w.2.1 coefs.y))
      (Cartesian3.multiplyByScalar w.2.2.1 coefs.z))
    (Cartesian3.multiplyByScalar w.2.2.2 coefs.w)

/-- `BSpline.prototype.evaluate`, lines 132-179.  Returns the outcome
(`Except`) together with the post-call state.  Control flow, in source
order: line 136 locates the interval and stores it into `_lastTimeIndex`
(when the locator throws, the instance is unchanged); lines 137-143 build
the local parameter and time vector; line 144 multiplies by
`BSpline.bezierCoefficientMatrix`, which is `undefined`, so the call
fails there; the remaining lines (146-178) are embedded faithfully on the
(unreachable) path on which that matrix lookup were defined. -/
def BSpline.evaluate (s : BSpline) (time : ℚ) : Except SplineError Cartesian3 × BSpline :=
  match s.findTimeInterval time s.lastTimeIndex with
  | .error e => (.error e, s)
  | .ok i =>
    let s := { s with lastTimeIndex := i }
    let u := (time - s.times.getD i 0) / (s.times.getD (i + 1) 0 - s.times.getD i 0)
    let timeVec : Cartesian4 := { x := u * u * u, y := u * u, z := u, w := 0 }
    match BSpline.bezierCoefficientMatrix with
    | none => (.error .undefinedAccess, s)
    | some mat =>
      let coefs := Matrix4.multiplyByPoint mat timeVec
      match selectWindow s.points i with
      | none => (.error .undefinedAccess, s)
      | some w => (.ok (blendWindow coefs w), s)

/-- The monomial vector `(u^3, u^2, u, 1)` of the spec (step 2 of the
evaluation algorithm). -/
def monomialVec (u : ℚ) : Cartesian4 := ⟨u ^ 3, u ^ 2, u, 1⟩

/-- The four blending weights: the monomial vector transformed by the
fixed 1/6-scaled basis matrix (lines 85-90). -/
def basisWeights (u : ℚ) : Cartesian4 :=
  Matrix4.multiplyByVector BSpline.bSplineCoefficientMatrix (monomialVec u)

/-- The outcome state of `evaluate` keeps the `times` and `points` arrays of
the input state: the only field ever written is `_lastTimeIndex`
(line 136). -/
theorem evaluate_snd_eq (s : BSpline) (t : ℚ) :
    (BSpline.evaluate s t).2.times = s.times ∧ (BSpline.evaluate s t).2.points = s.points := by
  unfold BSpline.evaluate
  cases h : s.findTimeInterval t s.lastTimeIndex <;>
    simp [BSpline.bezierCoefficientMatrix]

/-- After `evaluate`, the hint field is either untouched (the locator threw
before the assignment at line 136) or exactly the index the locator
returned. -/
theorem evaluate_lastTimeIndex (s : BSpline) (t : ℚ) :
    (BSpline.evaluate s t).2.lastTimeIndex = s.lastTimeIndex ∨
    s.findTimeInterval t s.lastTimeIndex = .ok (BSpline.evaluate s t).2.lastTimeIndex := by
  unfold BSpline.evaluate
  cases h : s.findTimeInterval t s.lastTimeIndex with
  | error e => left; rfl
  | ok i => right; simp [BSpline.bezierCoefficientMatrix, h]

/-- The outcome component of `evaluate` does not depend on the stored hint:
the locator result is hint-independent, and nothing after line 136 reads
the hint. -/
theorem evaluate_fst_hint_free (ts : List ℚ) (ps : List Cartesian3) (h1 h2 : ℕ) (t : ℚ) :
    (BSpline.evaluate ⟨ts, ps, h1⟩ t).1 = (BSpline.evaluate ⟨ts, ps, h2⟩ t).1 := by
  have hfind : Spline.findTimeInterval ts t h1 = Spline.findTimeInterval ts t h2 := rfl
  unfold BSpline.evaluate BSpline.findTimeInterval
  cases h : Spline.findTimeInterval ts t h2 <;>
    simp [hfind, h, BSpline.bezierCoefficientMatrix]

/-- The locator fold keeps its accumulator within any bound satisfied by the
initial value and by every candidate index. -/
theorem foldl_hint_bound (times : List ℚ) (time : ℚ) (B : ℕ) (l : List ℕ)
    (hl : ∀ x ∈ l, x ≤ B) (init : ℕ) (hinit : init ≤ B) :
    l.foldl (fun acc i => if times.getD i 0 ≤ time then i else acc) init ≤ B := by
  induction l generalizing init with
  | nil => exact hinit
  | cons a l ih =>
    simp only [List.foldl_cons]
    apply ih
    · exact fun x hx => hl x (List.mem_cons_of_mem a hx)
    · split
      · exact hl a (List.mem_cons_self a l)
      · exact hinit

/-- A successfully located interval index is at most `times.length - 2`. -/
theorem findTimeInterval_le (times : List ℚ) (time : ℚ) (hint i : ℕ)
    (h : Spline.findTimeInterval times time hint = .ok i) : i ≤ times.length - 2 := by
  unfold Spline.findTimeInterval at h
  split at h
  · exact absurd h (by simp)
  · injection h with h
    rw [← h]
    apply foldl_hint_bound
    · intro x hx
      have := List.mem_range.mp hx
      omega
    · omega

/-- Claim C1 (code bug).  The claim states that for every curve the
constructor accepts, `evaluate(times[0])` and `evaluate(times[last])` do
not fail and return finite points.  On the code this is false: line 144
multiplies by `BSpline.bezierCoefficientMatrix`, a property the source
never assigns (only `bSplineCoefficientMatrix` is, at line 85), so every
in-range evaluation fails on the undefined matrix.  Witnessed here on the
accepted curve `times = [0, 1]`, `points = [(0,0,0), (1,0,0)]`: both
endpoint evaluations fail. -/
theorem c1_endpoint_evaluation_fails :
    BSpline.construct (some [0, 1]) (some [⟨0, 0, 0⟩, ⟨1, 0, 0⟩]) =
      .ok ⟨[0, 1], [⟨0, 0, 0⟩, ⟨1, 0, 0⟩], 0⟩ ∧
    (BSpline.evaluate ⟨[0, 1], [⟨0, 0, 0⟩, ⟨1, 0, 0⟩], 0⟩ 0).1 =
      .error .undefinedAccess ∧
    (BSpline.evaluate ⟨[0, 1], [⟨0, 0, 0⟩, ⟨1, 0, 0⟩], 0⟩ 1).1 =
      .error .undefinedAccess :=
  ⟨rfl, rfl, rfl⟩

/-- Claim C2 (code bug).  The claim states that `evaluate` transforms the
monomial vector by the module constant `bSplineCoefficientMatrix`.  The
code instead reads `BSpline.bezierCoefficientMatrix` at line 144, which is
never assigned and hence undefined, so the transform fails; shown here
together with a failing in-range evaluation on the curve
`times = [0, 1, 2]` at time 1. -/
theorem c2_matrix_used_is_undefined :
    BSpline.bezierCoefficientMatrix = none ∧
    (BSpline.evaluate ⟨[0, 1, 2], [⟨0, 0, 0⟩, ⟨1, 0, 0⟩, ⟨0, 1, 0⟩], 0⟩ 1).1 =
      .error .undefinedAccess :=
  ⟨rfl, rfl⟩

/-- Claim C3 (code bug).  The claim describes the four-point window
`evaluate` selects for the located interval.  The selection code of
lines 146-170 does match the claim (second conjunct: at the interior
index 1 of a four-point curve it selects
`(points[0], points[1], points[2], points[3])`), but `evaluate` never
reaches it: the call fails at line 144 on the undefined
`bezierCoefficientMatrix` right after storing the located index
(conjuncts one and two). -/
theorem c3_window_selection_unreachable :
    (BSpline.evaluate ⟨[0, 1, 2, 3], [⟨0, 0, 0⟩, ⟨1, 0, 0⟩, ⟨2, 1, 0⟩, ⟨3, 1, 0⟩], 0⟩
        1).1 = .error .undefinedAccess ∧
    (BSpline.evaluate ⟨[0, 1, 2, 3], [⟨0, 0, 0⟩, ⟨1, 0, 0⟩, ⟨2, 1, 0⟩, ⟨3, 1, 0⟩], 0⟩
        1).2.lastTimeIndex = 1 ∧
    selectWindow [⟨0, 0, 0⟩, ⟨1, 0, 0⟩, ⟨2, 1, 0⟩, ⟨3, 1, 0⟩] 1 =
      some (⟨0, 0, 0⟩, ⟨1, 0, 0⟩, ⟨2, 1, 0⟩, ⟨3, 1, 0⟩) :=
  ⟨rfl, rfl, rfl⟩

/-- Claim C4 (partition of unity): for every `u` in `[0, 1]`, the four
blending weights obtained by transforming the monomial vector
`(u^3, u^2, u, 1)` by the fixed 1/6-scaled basis matrix of lines 85-90 sum
to 1. -/
theorem c4_partition_of_unity (u : ℚ) (h0 : 0 ≤ u) (h1 : u ≤ 1) :
    (basisWeights u).x + (basisWeights u).y + (basisWeights u).z + (basisWeights u).w = 1 := by
  simp [basisWeights, monomialVec, BSpline.bSplineCoefficientMatrix,
    Matrix4.multiplyByVector, Matrix4.multiplyByScalar]
  ring

/-- Witness for C4 at `u = 1/2`. -/
theorem c4_witness :
    (0 : ℚ) ≤ 1 / 2 ∧ (1 : ℚ) / 2 ≤ 1 ∧
    (basisWeights (1 / 2)).x + (basisWeights (1 / 2)).y +
      (basisWeights (1 / 2)).z + (basisWeights (1 / 2)).w = 1 :=
  ⟨by norm_num, by norm_num, c4_partition_of_unity (1 / 2) (by norm_num) (by norm_num)⟩

/-- Claim C5 (hint-cache noninterference): the outcome of `evaluate` on a
given curve at a given time is identical for any two hint values in
`[0, points.length - 2]`, and evaluating at `t1, t2, t1` in non-monotonic
order yields identical outcomes for the two `t1` evaluations, whatever the
call history did to the hint. -/
theorem c5_hint_noninterference (ts : List ℚ) (ps : List Cartesian3) (h1 h2 : ℕ)
    (hh1 : h1 ≤ ps.length - 2) (hh2 : h2 ≤ ps.length - 2) (t1 t2 : ℚ) :
    (BSpline.evaluate ⟨ts, ps, h1⟩ t1).1 = (BSpline.evaluate ⟨ts, ps, h2⟩ t1).1 ∧
    (BSpline.evaluate (BSpline.evaluate (BSpline.evaluate ⟨ts, ps, h1⟩ t1).2 t2).2 t1).1 =
      (BSpline.evaluate ⟨ts, ps, h1⟩ t1).1 := by
  refine ⟨evaluate_fst_hint_free ts ps h1 h2 t1, ?_⟩
  have hA := evaluate_snd_eq ⟨ts, ps, h1⟩ t1
  have hB := evaluate_snd_eq (BSpline.evaluate ⟨ts, ps, h1⟩ t1).2 t2
  have hsB : (BSpline.evaluate (BSpline.evaluate ⟨ts, ps, h1⟩ t1).2 t2).2 =
      ⟨ts, ps, (BSpline.evaluate (BSpline.evaluate ⟨ts, ps, h1⟩ t1).2 t2).2.lastTimeIndex⟩ := by
    have h3 := hB.1.trans hA.1
    have h4 := hB.2.trans hA.2
    exact BSpline.ext h3 h4 rfl
  rw [hsB]
  exact evaluate_fst_hint_free ts ps _ h1 t1

/-- Witness for C5 on the three-point curve `times = [0, 1, 2]` with hints
0 and 1 and the query sequence `1/2, 2, 1/2`. -/
theorem c5_witness :
    (0 : ℕ) ≤ ([⟨0, 0, 0⟩, ⟨1, 0, 0⟩, ⟨0, 1, 0⟩] : List Cartesian3).length - 2 ∧
    (1 : ℕ) ≤ ([⟨0, 0, 0⟩, ⟨1, 0, 0⟩, ⟨0, 1, 0⟩] : List Cartesian3).length - 2 ∧
    ((BSpline.evaluate ⟨[0, 1, 2], [⟨0, 0, 0⟩, ⟨1, 0, 0⟩, ⟨0, 1, 0⟩], 0⟩ (1 / 2)).1 =
        (BSpline.evaluate ⟨[0, 1, 2], [⟨0, 0, 0⟩, ⟨1, 0, 0⟩, ⟨0, 1, 0⟩], 1⟩ (1 / 2)).1 ∧
      (BSpline.evaluate (BSpline.evaluate
          (BSpline.evaluate ⟨[0, 1, 2], [⟨0, 0, 0⟩, ⟨1, 0, 0⟩, ⟨0, 1, 0⟩], 0⟩ (1 / 2)).2 2).2
          (1 / 2)).1 =
        (BSpline.evaluate ⟨[0, 1, 2], [⟨0, 0, 0⟩, ⟨1, 0, 0⟩, ⟨0, 1, 0⟩], 0⟩ (1 / 2)).1) :=
  ⟨by decide, by decide,
    c5_hint_noninterference [0, 1, 2] [⟨0, 0, 0⟩, ⟨1, 0, 0⟩, ⟨0, 1, 0⟩] 0 1
      (by decide) (by decide) (1 / 2) 2⟩

/-- Claim C6 (constructor error contract): construction fails with
MISSING_ARGUMENT (here the two `required` errors) when `times` or `points`
is absent, with INVALID_LENGTH when `points.length < 2`, with
LENGTH_MISMATCH when the lengths disagree, and otherwise succeeds storing
the given arrays. -/
theorem c6_constructor_contract (times : List ℚ) (points : List Cartesian3) :
    BSpline.construct none none = .error .timesRequired ∧
    BSpline.construct none (some points) = .error .timesRequired ∧
    BSpline.construct (some times) none = .error .pointsRequired ∧
    (points.length < 2 →
      BSpline.construct (some times) (some points) = .error .invalidLength) ∧
    (¬points.length < 2 → times.length ≠ points.length →
      BSpline.construct (some times) (some points) = .error .lengthMismatch) ∧
    (¬points.length < 2 → times.length = points.length →
      BSpline.construct (some times) (some points) =
        .ok ⟨times, points, 0⟩) := by
  refine ⟨rfl, rfl, rfl, ?_, ?_, ?_⟩
  · intro h
    simp [BSpline.construct, h]
  · intro h hne
    simp [BSpline.construct, h, hne]
  · intro h he
    simp [BSpline.construct, h, he]

/-- Witness for C6: a successful two-point construction, a one-point
INVALID_LENGTH failure and a mismatched-lengths LENGTH_MISMATCH failure. -/
theorem c6_witness :
    BSpline.construct (some [0, 1]) (some [⟨0, 0, 0⟩, ⟨1, 0, 0⟩]) =
      .ok ⟨[0, 1], [⟨0, 0, 0⟩, ⟨1, 0, 0⟩], 0⟩ ∧
    BSpline.construct (some [0]) (some [⟨0, 0, 0⟩]) = .error .invalidLength ∧
    BSpline.construct (some [0]) (some [⟨0, 0, 0⟩, ⟨1, 0, 0⟩]) = .error .lengthMismatch :=
  ⟨(c6_constructor_contract [0, 1] [⟨0, 0, 0⟩, ⟨1, 0, 0⟩]).2.2.2.2.2 (by decide) (by decide),
    (c6_constructor_contract [0] [⟨0, 0, 0⟩]).2.2.2.1 (by decide),
    (c6_constructor_contract [0] [⟨0, 0, 0⟩, ⟨1, 0, 0⟩]).2.2.2.2.1 (by decide) (by decide)⟩

/-- Claim C7 (out-of-range evaluation): for every curve, `evaluate` fails
with OUT_OF_RANGE exactly when the query time lies outside
`[times[0], times[times.length - 1]]`; in-range times are never clamped
and never produce OUT_OF_RANGE. -/
theorem c7_out_of_range_iff (s : BSpline) (t : ℚ) (hlen : 2 ≤ s.times.length) :
    (BSpline.evaluate s t).1 = .error .outOfRange ↔
      (t < s.times.getD 0 0 ∨ s.times.getD (s.times.length - 1) 0 < t) := by
  unfold BSpline.evaluate BSpline.findTimeInterval Spline.findTimeInterval
  by_cases hc : t < s.times.getD 0 0 ∨ s.times.getD (s.times.length - 1) 0 < t
  · rw [if_pos hc]
    simp only [Except.error.injEq, true_iff, reduceCtorEq, iff_true]
    simpa using hc
  · rw [if_neg hc]
    simp [BSpline.bezierCoefficientMatrix]
    simpa using hc

/-- Witness for C7 on `times = [0, 1]` at the out-of-range time 2. -/
theorem c7_witness :
    2 ≤ ([0, 1] : List ℚ).length ∧
    ((BSpline.evaluate ⟨[0, 1], [⟨0, 0, 0⟩, ⟨1, 0, 0⟩], 0⟩ 2).1 = .error .outOfRange ↔
      ((2 : ℚ) < ([0, 1] : List ℚ).getD 0 0 ∨
        ([0, 1] : List ℚ).getD (([0, 1] : List ℚ).length - 1) 0 < 2)) :=
  ⟨by decide, c7_out_of_range_iff ⟨[0, 1], [⟨0, 0, 0⟩, ⟨1, 0, 0⟩], 0⟩ 2 (by decide)⟩

/-- Claim C8 (frame condition): every `evaluate` call leaves `times` and
`points` unchanged, and the only mutation is the hint field, which is
either untouched (when the locator throws) or set to the located interval
index. -/
theorem c8_frame_condition (s : BSpline) (t : ℚ) :
    (BSpline.evaluate s t).2.times = s.times ∧
    (BSpline.evaluate s t).2.points = s.points ∧
    ((BSpline.evaluate s t).2.lastTimeIndex = s.lastTimeIndex ∨
      s.findTimeInterval t s.lastTimeIndex = .ok (BSpline.evaluate s t).2.lastTimeIndex) :=
  ⟨(evaluate_snd_eq s t).1, (evaluate_snd_eq s t).2, evaluate_lastTimeIndex s t⟩

/-- Claim C9 (hint-range invariant): construction initializes the hint to
0, and for every curve state satisfying the constructor invariants and the
hint bound, the hint after an `evaluate` call is still at most
`points.length - 2`. -/
theorem c9_hint_range_invariant (s : BSpline) (t : ℚ)
    (hlen : s.times.length = s.points.length) (h2 : 2 ≤ s.points.length)
    (hinv : s.lastTimeIndex ≤ s.points.length - 2) :
    (∀ (ts : List ℚ) (ps : List Cartesian3) (s0 : BSpline),
        BSpline.construct (some ts) (some ps) = .ok s0 → s0.lastTimeIndex = 0) ∧
    (BSpline.evaluate s t).2.lastTimeIndex ≤ (BSpline.evaluate s t).2.points.length - 2 := by
  constructor
  · intro ts ps s0 h
    simp only [BSpline.construct] at h
    split at h
    · exact absurd h (by simp)
    · split at h
      · exact absurd h (by simp)
      · rw [Except.ok.injEq] at h
        rw [← h]
  · rw [(evaluate_snd_eq s t).2]
    rcases evaluate_lastTimeIndex s t with h | h
    · rw [h]
      exact hinv
    · have := findTimeInterval_le s.times t s.lastTimeIndex _ h
      omega

/-- Witness for C9 on the two-point curve `times = [0, 1]` evaluated at
time 1. -/
theorem c9_witness :
    ([0, 1] : List ℚ).length = ([⟨0, 0, 0⟩, ⟨1, 0, 0⟩] : List Cartesian3).length ∧
    2 ≤ ([⟨0, 0, 0⟩, ⟨1, 0, 0⟩] : List Cartesian3).length ∧
    (0 : ℕ) ≤ ([⟨0, 0, 0⟩, ⟨1, 0, 0⟩] : List Cartesian3).length - 2 ∧
    ((∀ (ts : List ℚ) (ps : List Cartesian3) (s0 : BSpline),
        BSpline.construct (some ts) (some ps) = .ok s0 → s0.lastTimeIndex = 0) ∧
      (BSpline.evaluate ⟨[0, 1], [⟨0, 0, 0⟩, ⟨1, 0, 0⟩], 0⟩ 1).2.lastTimeIndex ≤
        (BSpline.evaluate ⟨[0, 1], [⟨0, 0, 0⟩, ⟨1, 0, 0⟩], 0⟩ 1).2.points.length - 2) :=
  ⟨by decide, by decide, by decide,
    c9_hint_range_invariant ⟨[0, 1], [⟨0, 0, 0⟩, ⟨1, 0, 0⟩], 0⟩ 1
      (by decide) (by decide) (by decide)⟩

/-- Claim C10 (in-bounds window selection): for curves with at least three
points and any located interval index `i ≤ points.length - 2`, every
control-point index read by the three-way window selection of
lines 146-170 is within bounds (the selection yields a window), and the
`i = 0` branch is the one applied whenever `i = 0`, since it is tested
before the last-interval branch. -/
theorem c10_window_selection_in_bounds (points : List Cartesian3) (i : ℕ)
    (h3 : 3 ≤ points.length) (hi : i ≤ points.length - 2) :
    (selectWindow points i).isSome = true ∧
    (∀ ps : List Cartesian3, selectWindow ps 0 = firstIntervalWindow ps) := by
  refine ⟨?_, fun ps => rfl⟩
  unfold selectWindow
  split
  · have e0 := List.getElem?_eq_getElem (show 0 < points.length by omega)
    have e1 := List.getElem?_eq_getElem (show 1 < points.length by omega)
    have e2 := List.getElem?_eq_getElem (show 2 < points.length by omega)
    simp [firstIntervalWindow, e0, e1, e2]
  · split
    · rename_i hne heq
      have e0 := List.getElem?_eq_getElem (show i - 1 < points.length by omega)
      have e1 := List.getElem?_eq_getElem (show i < points.length by omega)
      have e2 := List.getElem?_eq_getElem (show i + 1 < points.length by omega)
      simp [lastIntervalWindow, e0, e1, e2]
    · rename_i hne hne2
      have e0 := List.getElem?_eq_getElem (show i - 1 < points.length by omega)
      have e1 := List.getElem?_eq_getElem (show i < points.length by omega)
      have e2 := List.getElem?_eq_getElem (show i + 1 < points.length by omega)
      have e3 := List.getElem?_eq_getElem (show i + 2 < points.length by omega)
      simp [interiorWindow, e0, e1, e2, e3]

/-- Witness for C10 on a three-point list at the last interval index 1. -/
theorem c10_witness :
    3 ≤ ([⟨0, 0, 0⟩, ⟨1, 0, 0⟩, ⟨0, 1, 0⟩] : List Cartesian3).length ∧
    (1 : ℕ) ≤ ([⟨0, 0, 0⟩, ⟨1, 0, 0⟩, ⟨0, 1, 0⟩] : List Cartesian3).length - 2 ∧
    ((selectWindow [⟨0, 0, 0⟩, ⟨1, 0, 0⟩, ⟨0, 1, 0⟩] 1).isSome = true ∧
      (∀ ps : List Cartesian3, selectWindow ps 0 = firstIntervalWindow ps)) :=
  ⟨by decide, by decide,
    c10_window_selection_in_bounds [⟨0, 0, 0⟩, ⟨1, 0, 0⟩, ⟨0, 1, 0⟩] 1 (by decide) (by decide)⟩
